import Mathlib

/-!
Verification of the xv6 E1000 networking code (ARP framing, E1000 driver
ring management, PCI configuration access) against its design spec.

Shallow embedding conventions:
* C unsigned integers are `Nat` with explicit `% 2^w` where overflow can occur;
  C `int` ring indices are `Int`.
* C strings/buffers are `List Nat` of byte values (e.g. 58 = colon, 70 = the
  letter F, 48 = the digit zero, 46 = dot).
* Uninitialized C memory (a stack array read before being written) is made
  explicit as a `junk` parameter supplying the arbitrary initial contents.
* Loops whose C source does not terminate are given fuel and return `Option`.
-/

namespace XvNet

/-! ## Byte-order swap (arpfrm.c, `hton`)

`uint16_t hton(uint16_t v) { return (v >> 8) | (v << 8); }`
The operands are promoted to `int`; the result is truncated back to 16 bits. -/

def hton (v : Nat) : Nat := ((v >>> 8) ||| (v <<< 8)) % 65536

/-! ## Hex digit conversion (arpfrm.c, `inttohex` / `hextoint`) -/

def inttohex (n : Nat) : Nat :=
  if n ≤ 9 then 48 + n
  else if 10 ≤ n ∧ n ≤ 15 then 65 + (n - 10)
  else 48

def hextoint (c : Nat) : Nat :=
  if 48 ≤ c ∧ c ≤ 57 then c - 48
  else if 65 ≤ c ∧ c ≤ 70 then 10 + (c - 65)
  else if 97 ≤ c ∧ c ≤ 102 then 10 + (c - 97)
  else 0

/-! ## MAC text conversion (arpfrm.c, `unpackmac` / `packmac`)

`unpackmac` writes, for each of the 6 bytes, the high nibble's hex char, the
low nibble's hex char and a colon, then overwrites the final colon (index 17)
with a NUL terminator.  The source's write counter is an undeclared
identifier `c` (the declared `j` is unused); it is modelled as the evident
sequential write index starting at 0. -/

def unpackmacBytes (mac : Fin 6 → Nat) : List Nat :=
  (List.finRange 6).flatMap fun i =>
    [inttohex ((mac i &&& 0xf0) >>> 4), inttohex (mac i &&& 0x0f), 58]

def unpackmac (mac : Fin 6 → Nat) : List Nat :=
  (unpackmacBytes mac).set 17 0

/-- `packmac` reads character pairs at indices 0,3,6,9,12,15 and stores
`(hextoint hi << 4) + hextoint lo` into each output byte. -/
def packmac (macstr : List Nat) : Fin 6 → Nat :=
  fun j => (hextoint (macstr.getD (3 * j.val) 0) <<< 4) +
           hextoint (macstr.getD (3 * j.val + 1) 0)

/-- The 17 characters of the literal `"FF:FF:FF:FF:FF:FF"` (70 = F, 58 = colon). -/
def broadcastMacStr : List Nat :=
  [70, 70, 58, 70, 70, 58, 70, 70, 58, 70, 70, 58, 70, 70, 58, 70, 70]

/-- A byte value is an uppercase hex digit character. -/
def isHexUpper (c : Nat) : Prop := (48 ≤ c ∧ c ≤ 57) ∨ (65 ≤ c ∧ c ≤ 70)

/-! ## IP text parsing (arpfrm.c, `getip`)

The source loop reads `ip[j]` — not `ip[i]` — where `j` is also the write
index into the 4-char accumulator `arr` and is reset to 0 after every dot, so
after the first dot the loop re-reads the string from its start.  `arr` is
modelled as the list of characters accumulated since the last reset (the
flush writes a NUL at the current position, so `atoi` sees exactly these
characters).  `ipvals` is a `uint[4]` stack array whose slots that are never
written keep arbitrary initial contents `junk`. -/

/-- Reading `s[idx]` from a NUL-terminated C string: index `s.length` is the
terminator; indices beyond it are unowned memory supplied by `sj`. -/
def strRead (s : List Nat) (sj : Nat → Nat) (idx : Nat) : Nat :=
  if h : idx < s.length then s.get ⟨idx, h⟩
  else if idx = s.length then 0
  else sj idx

/-- Modelled from the spec: the decimal-string-to-int helper `atoi` called by
`getip` is not among the provided sources; per the spec's "dotted-decimal
string ↔ 32-bit value" parse contract it accumulates leading decimal digits. -/
def atoi : List Nat → Nat → Nat
  | [], n => n
  | c :: cs, n => if 48 ≤ c ∧ c ≤ 57 then atoi cs (n * 10 + (c - 48)) else n

structure GetipSt where
  arr : List Nat
  ipvals : Nat → Nat
  k : Nat

def getipLoop (readf : Nat → Nat) : Nat → GetipSt → GetipSt
  | 0, st => st
  | n + 1, st =>
      let c := readf st.arr.length
      getipLoop readf n
        (if c = 46 then
          { arr := [],
            ipvals := Function.update st.ipvals st.k (atoi st.arr 0),
            k := st.k + 1 }
        else { st with arr := st.arr ++ [c] })

def getip (ip : List Nat) (sj : Nat → Nat) (junk : Nat → Nat) : Nat :=
  let st := getipLoop (strRead ip sj) ip.length ⟨[], junk, 0⟩
  let iv := Function.update st.ipvals st.k (atoi st.arr 0)
  ((iv 3 <<< 24) + (iv 2 <<< 16) + (iv 1 <<< 8) + iv 0) % 4294967296

/-- The characters of the literal `"192.168.1.1"`. -/
def srcIpStr : List Nat := [49, 57, 50, 46, 49, 54, 56, 46, 49, 46, 49]

/-! ## IP text formatting (arpfrm.c, `parseip`)

The octet-extraction loop `for (i = 0; i >= 0; i--)` runs exactly once (its
loop variable `i` is an undeclared identifier, modelled as the evident `int`),
and its body is `ipvals[i] = ip && v` — the *logical* AND, so `ipvals[0]` is
1 for any nonzero `ip` and 0 otherwise; `ipvals[1..3]` keep their arbitrary
initial contents `junk`.  The digit-output loop
`for (k = k - 1; j >= 0; j--) ipstr[j++] = arr[k];` increments `j` in its
body and decrements it in its update, so `j` never changes and the loop never
exits once entered with `j ≥ 0`; it is modelled with fuel.  On the
(unreachable-in-practice) all-octets-zero path the function emits the digit
zero and a colon per octet; the final NUL write `ipstr[c - 1] = 0` indexes
through the undeclared `c` and is not part of the returned characters. -/

def emitLoop : Nat → Int → Option Int
  | 0, _ => none
  | f + 1, j => if 0 ≤ j then emitLoop f (j + 1 - 1) else some j

/-- The `while (ip > 0)` digit accumulator (reversed decimal digits). -/
def digitsRev : Nat → List Nat
  | 0 => []
  | w + 1 => ((w + 1) % 10 + 48) :: digitsRev ((w + 1) / 10)

structure ParseipSt where
  out : List Nat
  j : Int

/-- One iteration of `parseip`'s output loop for octet value `w`. -/
def parseipStep (fuel : Nat) (w : Nat) (st : ParseipSt) : Option ParseipSt :=
  if w = 0 then some { out := st.out ++ [48, 58], j := st.j + 2 }
  else
    let _arr := digitsRev w
    match emitLoop fuel st.j with
    | none => none
    | some j2 => some { out := st.out, j := j2 + 1 }

def parseipFuel (fuel : Nat) (ip : Nat) (junk : Nat → Nat) : Option (List Nat) :=
  let iv : Fin 4 → Nat := fun i =>
    if i.val = 0 then (if ip ≠ 0 then 1 else 0) else junk i.val
  (parseipStep fuel (iv 0) ⟨[], 0⟩).bind fun s1 =>
  (parseipStep fuel (iv 1) s1).bind fun s2 =>
  (parseipStep fuel (iv 2) s2).bind fun s3 =>
  (parseipStep fuel (iv 3) s3).map fun s4 => s4.out

/-! ## Ethernet/ARP frame construction (arpfrm.h, arpfrm.c `initframe`) -/

structure eth_head where
  dmac : Fin 6 → Nat
  smac : Fin 6 → Nat
  ethtype : Nat
  hwtype : Nat
  prottype : Nat
  hwsize : Nat
  protsize : Nat
  opercode : Nat
  arpsmac : Fin 6 → Nat
  sip : Nat
  arpdmac : Fin 6 → Nat
  dip : Nat
  padd : Nat

/-- `initframe(smac, ipadd, eth)`: fields assigned exactly as in the source.
The two `getip` calls each use a fresh uninitialized `ipvals` array
(`junkS` / `junkD`) and C-string out-of-bounds reads (`sjS` / `sjD`). -/
def initframe (smac : Fin 6 → Nat) (ipadd : List Nat)
    (sjS junkS sjD junkD : Nat → Nat) (eth : eth_head) : eth_head :=
  { eth with
    dmac := packmac broadcastMacStr
    smac := smac
    ethtype := hton 0x0806
    hwtype := hton 1
    prottype := hton 0x0800
    hwsize := 0x06
    protsize := 0x04
    opercode := hton 1
    arpsmac := smac
    arpdmac := packmac broadcastMacStr
    sip := getip srcIpStr sjS junkS
    dip := getip ipadd sjD junkD }

/-! ## ARP reply validation (arpfrm.c, `parsereply`)

The source compares the raw `ethtype`, `prottype`, `opercode` fields against
host-order constants, converts `arpdmac` to text with `unpackmac` into an
18-byte buffer and `strcmp`s it against `"FF:FF:FF:FF:FF:FF"` (equality iff
the 17 characters plus terminator coincide), then formats `dip` with
`parseip` (which may not terminate; fuel) and `strcmp`s the written
characters against `"255.255.255.255"` (list equality; junk beyond the
written characters could only make the comparison fail, never succeed).
On full success it resolves `arpsmac` as text.  (The source also redeclares
the local `mac` for that output; the second declaration is modelled as the
output binding.) -/

/-- The characters of the literal `"255.255.255.255"`. -/
def targetIpStr : List Nat :=
  [50, 53, 53, 46, 50, 53, 53, 46, 50, 53, 53, 46, 50, 53, 53]

inductive PReply where
  | notArp
  | notIpv4
  | notReply
  | notRecipMac
  | notRecipIp
  | resolved (mac : List Nat)
deriving DecidableEq

def parsereplyFuel (fuel : Nat) (eth : eth_head) (junk : Nat → Nat) :
    Option PReply :=
  if eth.ethtype ≠ 0x0806 then some .notArp
  else if eth.prottype ≠ 0x0800 then some .notIpv4
  else if eth.opercode ≠ 2 then some .notReply
  else if unpackmac eth.arpdmac ≠ broadcastMacStr ++ [0] then some .notRecipMac
  else
    match parseipFuel fuel eth.dip junk with
    | none => none
    | some dip =>
        if dip ≠ targetIpStr then some .notRecipIp
        else some (.resolved (unpackmac eth.arpsmac))

/-! ## E1000 driver transmit path (unnamed/part_001, `sende1000`)

The transmit state holds the 128 descriptor slots, the packet-buffer
contents, the physical addresses of the packet buffers (fixed at init) and
the `int` head/tail indices.  `sende1000` zeroes the descriptor at the tail,
copies `len` bytes of the packet into the tail buffer (there is no length
check against the 2046-byte buffer capacity, and the function returns
`void`), fills the descriptor, advances the tail modulo 128 and writes the
new tail to the hardware TDT register; the trailing DONE-poll loop only
reads the hardware-owned status byte and changes no driver state.  C indexes
`tbd[tbdtail]` directly; the `toNat % 128` coercion below only matters for
out-of-range states that no run in the theorems reaches. -/

def E1000_TBD_SLOTS : Nat := 128
def E1000_RBD_SLOTS : Nat := 128
def E1000_TDESC_CMD_EOP : Nat := 0x01
def E1000_TDESC_CMD_IFCS : Nat := 0x02
def E1000_TDESC_CMD_RS : Nat := 0x08
def E1000_RDBAL : Nat := 0x02800
def E1000_RDBAH : Nat := 0x02804
def E1000_RDLEN : Nat := 0x02808
def E1000_RDH : Nat := 0x02810
def E1000_RDT : Nat := 0x02818
def E1000_TDBAL : Nat := 0x03800
def E1000_TDBAH : Nat := 0x03804
def E1000_TDLEN : Nat := 0x03808
def E1000_TDH : Nat := 0x03810
def E1000_TDT : Nat := 0x03818
def E1000_TCTL : Nat := 0x000400
def E1000_TCTL_EN : Nat := 0x00000002
def E1000_TCTL_PSP : Nat := 0x00000008
def E1000_TIPG : Nat := 0x00410
def E1000_IMS : Nat := 0x000d0
def E1000_IMS_TXQE : Nat := 0x00000002
def E1000_IMS_RXSEQ : Nat := 0x00000008
def E1000_IMS_RXO : Nat := 0x00000040
def E1000_IMS_RXT0 : Nat := 0x00000080
def E1000_RCTL : Nat := 0x00100
def E1000_RCTL_EN : Nat := 0x00000002
def E1000_RCTL_BAM : Nat := 0x00008000
def E1000_RCTL_BSIZE : Nat := 0x00000000

def E1000_TCTL_CT_SET (v : Nat) : Nat := (v <<< 4) &&& 0x00000ff0
def E1000_TCTL_COLD_SET (v : Nat) : Nat := (v <<< 12) &&& 0x003ff000
def E1000_TIPG_IPGT_SET (v : Nat) : Nat := (v <<< 0) &&& 0x000003ff
def E1000_TIPG_IPGR1_SET (v : Nat) : Nat := (v <<< 10) &&& 0x000ffc00
def E1000_TIPG_IPGR2_SET (v : Nat) : Nat := (v <<< 20) &&& 0x3ff00000

structure e1000_TBD where
  addr : Nat
  len : Nat
  cso : Nat
  cmd : Nat
  sts : Nat
  css : Nat
  spc : Nat

def zeroTBD : e1000_TBD := ⟨0, 0, 0, 0, 0, 0, 0⟩

structure e1000 where
  tbd : Fin 128 → e1000_TBD
  tbuf : Fin 128 → List Nat
  tbufpa : Fin 128 → Nat
  tbdhead : Int
  tbdtail : Int
  regs : Nat → Nat

def sende1000 (s : e1000) (pkt : List Nat) (len : Nat) : e1000 :=
  let t : Fin 128 := ⟨s.tbdtail.toNat % 128, Nat.mod_lt _ (by norm_num)⟩
  let newtail : Int := (s.tbdtail + 1) % 128
  { s with
    tbd := Function.update s.tbd t
      { zeroTBD with
        addr := s.tbufpa t
        len := len
        cmd := E1000_TDESC_CMD_RS ||| E1000_TDESC_CMD_EOP ||| E1000_TDESC_CMD_IFCS
        cso := 0 }
    tbuf := Function.update s.tbuf t (pkt.take len)
    tbdtail := newtail
    regs := Function.update s.regs E1000_TDT newtail.toNat }

/-- `N` consecutive `sende1000` calls with packets supplied by `pkts`. -/
def sendN (s : e1000) (pkts : Nat → List Nat × Nat) : Nat → e1000
  | 0 => s
  | n + 1 => sende1000 (sendN s pkts n) (pkts n).1 (pkts n).2

def e1000Init : e1000 :=
  ⟨fun _ => zeroTBD, fun _ => [], fun _ => 0, 0, 0, fun _ => 0⟩

def pktsEx : Nat → List Nat × Nat := fun _ => ([1, 2, 3], 3)

def pkt2047 : List Nat := List.replicate 2047 0xAB

/-! ## E1000 initialization: descriptor-ring setup (unnamed/part_001, `inite1000`)

`inite1000` obtains each descriptor ring from one allocator call, assigns
`tbd[i] = ttmp++` (both descriptor structs are 16 bytes, so `tbd[i]` is the
ring start plus `16*i` and after the loop `ttmp` points `16*128 = 2048` bytes
past the start), then checks `V2P(tbd[0]) & 0xf`; on misalignment it logs,
calls `kfree` on the *post-loop* `ttmp`/`rtmp` pointer and returns `-1`.
The receive ring is handled identically after the transmit ring. -/

def KERNBASE : Nat := 0x80000000

/-- Modelled from the spec: the virtual-to-physical translator (xv6's
`V2P` in memlayout.h) is not among the provided sources; the spec's
"Address translator: virtual_to_physical(pointer) -> physical address" is
xv6's fixed linear kernel mapping. -/
def V2P (v : Nat) : Nat := v - KERNBASE

structure RingSetup where
  result : Int
  freed : List Nat
  tbds : Fin 128 → Nat
  rbds : Fin 128 → Nat

def initRings (talloc ralloc : Nat) : RingSetup :=
  let tbds : Fin 128 → Nat := fun i => talloc + 16 * i.val
  if V2P (tbds 0) % 16 ≠ 0 then
    { result := -1, freed := [talloc + 16 * 128], tbds := tbds, rbds := fun _ => 0 }
  else
    let rbds : Fin 128 → Nat := fun i => ralloc + 16 * i.val
    if V2P (rbds 0) % 16 ≠ 0 then
      { result := -1, freed := [ralloc + 16 * 128], tbds := tbds, rbds := rbds }
    else
      { result := 0, freed := [], tbds := tbds, rbds := rbds }

/-- The hardware register writes of `inite1000` step 8, in program order
(unnamed/part_001 lines 385-398), given the two ring physical bases. -/
def initRegProgram (tbdpa rbdpa : Nat) : List (Nat × Nat) :=
  [(E1000_TDBAL, tbdpa),
   (E1000_TDBAH, 0),
   (E1000_TDLEN, (E1000_TBD_SLOTS * 16) <<< 7),
   (E1000_TDH, 0),
   (E1000_TCTL, E1000_TCTL_EN ||| E1000_TCTL_PSP |||
     E1000_TCTL_CT_SET 0x0f ||| E1000_TCTL_COLD_SET 0x200),
   (E1000_TDT, 0),
   (E1000_TIPG, E1000_TIPG_IPGT_SET 10 ||| E1000_TIPG_IPGR1_SET 10 |||
     E1000_TIPG_IPGR2_SET 10),
   (E1000_RDBAL, rbdpa),
   (E1000_RDBAH, 0),
   (E1000_RDLEN, (E1000_RBD_SLOTS * 16) <<< 7),
   (E1000_RDH, 0),
   (E1000_RDT, 0),
   (E1000_IMS, E1000_IMS_RXSEQ ||| E1000_IMS_RXO ||| E1000_IMS_RXT0 |||
     E1000_IMS_TXQE),
   (E1000_RCTL, E1000_RCTL_EN ||| E1000_RCTL_BAM ||| E1000_RCTL_BSIZE |||
     0x00000008)]

/-! ## PCI configuration access (pci.c / pci.h)

`pciconfigformaddr` forms the address word; `pciconfread` then performs
`outl(PCI_CONF_DATA_IOPORT, val); return inl(PCI_CONF_DATA_IOPORT);` — the
address is written to the *data* port 0xCFC, not to the address port 0xCF8
that pci.h's comment prescribes.  `pciconfwrite` uses the address port.
The port traffic of each call is modelled as a list of I/O events. -/

def PCI_CONF_ADDR_IOPORT : Nat := 0xCF8
def PCI_CONF_DATA_IOPORT : Nat := 0xCFC

def pciconfigformaddr (busaddr devaddr funcaddr offset : Nat) : Nat :=
  (0x80000000 ||| (busaddr <<< 16) ||| (devaddr <<< 11) |||
    (funcaddr <<< 8) ||| offset) % 4294967296

inductive IOEvent where
  | outl (port val : Nat)
  | inl (port : Nat)
deriving DecidableEq

def pciconfreadTrace (bus dev fn off : Nat) : List IOEvent :=
  [.outl PCI_CONF_DATA_IOPORT (pciconfigformaddr bus dev fn off),
   .inl PCI_CONF_DATA_IOPORT]

def pciconfwriteTrace (bus dev fn off val : Nat) : List IOEvent :=
  [.outl PCI_CONF_ADDR_IOPORT (pciconfigformaddr bus dev fn off),
   .outl PCI_CONF_DATA_IOPORT val]

/-! ## Concrete inputs used by counterexamples and witnesses -/

def macEx : Fin 6 → Nat := ![0xDE, 0xAD, 0xBE, 0xEF, 0x01, 0x23]

def zf : Nat → Nat := fun _ => 0

def ethZero : eth_head :=
  ⟨fun _ => 0, fun _ => 0, 0, 0, 0, 0, 0, 0, fun _ => 0, 0, fun _ => 0, 0, 0⟩

/-- The characters of the literal `"1.1.1.1"`. -/
def ipEx : List Nat := [49, 46, 49, 46, 49, 46, 49]

/-- A frame that is well-formed except that its opcode is "request" (1). -/
def ethReq : eth_head :=
  { ethZero with
    ethtype := 0x0806
    prottype := 0x0800
    opercode := 1
    smac := fun _ => 2
    arpsmac := fun _ => 2
    arpdmac := fun _ => 255 }

/-! # Theorems -/

/-! ## Helper lemmas -/

set_option maxRecDepth 4096 in
theorem byte_roundtrip : ∀ m : Fin 256,
    (hextoint (inttohex (((m : Nat) &&& 0xf0) >>> 4)) <<< 4) +
      hextoint (inttohex ((m : Nat) &&& 0x0f)) = (m : Nat) := by decide

theorem nibble_hi_le (m : Nat) : (m &&& 0xf0) >>> 4 ≤ 15 := by
  have h : m &&& 0xf0 ≤ 0xf0 := Nat.and_le_right
  have : (m &&& 0xf0) >>> 4 = (m &&& 0xf0) / 16 := by
    simp [Nat.shiftRight_eq_div_pow]
  omega

theorem nibble_lo_le (m : Nat) : m &&& 0x0f ≤ 15 := Nat.and_le_right

theorem inttohex_hex (n : Nat) (h : n ≤ 15) : isHexUpper (inttohex n) := by
  unfold inttohex isHexUpper
  split
  · omega
  · split <;> omega

theorem unpackmac_eq (mac : Fin 6 → Nat) :
    unpackmac mac =
      [inttohex ((mac 0 &&& 0xf0) >>> 4), inttohex (mac 0 &&& 0x0f), 58,
       inttohex ((mac 1 &&& 0xf0) >>> 4), inttohex (mac 1 &&& 0x0f), 58,
       inttohex ((mac 2 &&& 0xf0) >>> 4), inttohex (mac 2 &&& 0x0f), 58,
       inttohex ((mac 3 &&& 0xf0) >>> 4), inttohex (mac 3 &&& 0x0f), 58,
       inttohex ((mac 4 &&& 0xf0) >>> 4), inttohex (mac 4 &&& 0x0f), 58,
       inttohex ((mac 5 &&& 0xf0) >>> 4), inttohex (mac 5 &&& 0x0f), 0] := by
  rfl

theorem hton_arith (v : Nat) (h : v < 65536) :
    hton v = 256 * (v % 256) + v / 256 := by
  unfold hton
  rw [Nat.shiftRight_eq_div_pow, Nat.shiftLeft_eq, Nat.lor_comm, Nat.mul_comm,
    ← Nat.mul_add_lt_is_or (b := v / 2 ^ 8) (by omega)]
  have h256 : (2 : Nat) ^ 8 = 256 := by norm_num
  rw [h256]
  omega

/-! ## C3: MAC text conversion round-trip -/

/-- C3: MAC text conversion round-trips (`packmac (unpackmac mac) = mac` for
6-byte arrays), and `unpackmac` always yields exactly 17 characters plus a NUL
terminator, colon-separated uppercase-hex pairs. -/
theorem mac_roundtrip (mac : Fin 6 → Nat) (h : ∀ i, mac i < 256) :
    packmac (unpackmac mac) = mac ∧
    (unpackmac mac).length = 18 ∧
    (unpackmac mac).getD 17 0 = 0 ∧
    (∀ k, k < 5 → (unpackmac mac).getD (3 * k + 2) 0 = 58) ∧
    (∀ k, k < 6 → isHexUpper ((unpackmac mac).getD (3 * k) 0) ∧
                  isHexUpper ((unpackmac mac).getD (3 * k + 1) 0)) := by
  refine ⟨?_, ?_, ?_, ?_, ?_⟩
  · funext j
    fin_cases j <;>
      · simp only [packmac, unpackmac_eq, List.getD, Fin.isValue]
        simp only [List.get?_eq_getElem?, List.getElem?_cons_zero,
          List.getElem?_cons_succ, Option.getD_some]
        exact byte_roundtrip ⟨mac _, h _⟩
  · rw [unpackmac_eq]; rfl
  · rw [unpackmac_eq]; rfl
  · intro k hk
    rw [unpackmac_eq]
    interval_cases k <;> rfl
  · intro k hk
    rw [unpackmac_eq]
    interval_cases k <;>
      exact ⟨by simpa using inttohex_hex _ (nibble_hi_le (mac _)),
             by simpa using inttohex_hex _ (nibble_lo_le (mac _))⟩

/-- Witness for C3 at a concrete MAC. -/
theorem mac_roundtrip_witness :
    (∀ i, macEx i < 256) ∧ packmac (unpackmac macEx) = macEx := by
  have h : ∀ i, macEx i < 256 := by decide
  exact ⟨h, (mac_roundtrip macEx h).1⟩

/-! ## C2: ARP request frame construction -/

theorem packmac_broadcast : packmac broadcastMacStr = fun _ => 255 := by
  funext i
  fin_cases i <;> decide

/-- C2 counterexample: at a concrete call, `initframe` does NOT leave the ARP
target MAC unset — it sets it to the broadcast MAC — and the ARP sender IP is
not a fixed value: two runs differing only in the uninitialized contents of
`getip`'s `ipvals` array produce different sender IPs. -/
theorem initframe_claim_counterexample :
    (initframe (fun _ => 0) ipEx zf zf zf zf ethZero).arpdmac 0 = 255 ∧
    ethZero.arpdmac 0 = 0 ∧
    (initframe (fun _ => 0) ipEx zf (fun _ => 1) zf zf ethZero).sip ≠
      (initframe (fun _ => 0) ipEx zf zf zf zf ethZero).sip := by
  refine ⟨by decide, by decide, by decide⟩

/-- C2 (amended): `initframe` sets destination MAC to broadcast, sender MAC to
the caller's MAC, ethertype/hardware-type/protocol-type/opcode to the
byte-swapped constants 0x0806/1/0x0800/1, address lengths 6/4, ARP sender MAC
to the caller's MAC, ARP target MAC (not left unset) to the broadcast MAC,
ARP target IP to the source parser's result on the target text, and ARP
sender IP to the source parser's result on "192.168.1.1" — which reads an
uninitialized array slot, so it is 12632256 when that slot is 0 and changes
with the slot's contents. -/
theorem initframe_fields (smac : Fin 6 → Nat) (ipadd : List Nat)
    (sjS junkS sjD junkD : Nat → Nat) (eth : eth_head) :
    (initframe smac ipadd sjS junkS sjD junkD eth).dmac = (fun _ => 255) ∧
    (initframe smac ipadd sjS junkS sjD junkD eth).smac = smac ∧
    (initframe smac ipadd sjS junkS sjD junkD eth).ethtype = hton 0x0806 ∧
    hton 0x0806 = 0x0608 ∧
    (initframe smac ipadd sjS junkS sjD junkD eth).hwtype = hton 1 ∧
    (initframe smac ipadd sjS junkS sjD junkD eth).prottype = hton 0x0800 ∧
    (initframe smac ipadd sjS junkS sjD junkD eth).hwsize = 6 ∧
    (initframe smac ipadd sjS junkS sjD junkD eth).protsize = 4 ∧
    (initframe smac ipadd sjS junkS sjD junkD eth).opercode = hton 1 ∧
    hton 1 = 0x0100 ∧
    (initframe smac ipadd sjS junkS sjD junkD eth).arpsmac = smac ∧
    (initframe smac ipadd sjS junkS sjD junkD eth).arpdmac = (fun _ => 255) ∧
    (initframe smac ipadd sjS junkS sjD junkD eth).sip = getip srcIpStr sjS junkS ∧
    getip srcIpStr zf zf = 12632256 ∧
    getip srcIpStr zf (fun _ => 1) = 16777216 + 12632256 ∧
    (initframe smac ipadd sjS junkS sjD junkD eth).dip = getip ipadd sjD junkD := by
  refine ⟨packmac_broadcast, rfl, rfl, by decide, rfl, rfl, rfl, rfl, rfl,
    by decide, rfl, packmac_broadcast, rfl, by decide, by decide, rfl⟩

/-! ## C4: IP text conversion round-trip (parseip diverges) -/

theorem emitLoop_none (f : Nat) : ∀ j : Int, 0 ≤ j → emitLoop f j = none := by
  induction f with
  | zero => intro j _; rfl
  | succ f ih =>
      intro j h
      simp only [emitLoop, if_pos h]
      exact ih _ (by omega)

/-- C4: the IP formatter `parseip` never terminates on any nonzero 32-bit
value — its first extracted octet is the logical-AND value 1, which sends the
digit-output loop (whose net change to `j` is zero each pass) spinning
forever — so `getip (parseip ip)` is undefined and the claimed round-trip
fails.  Stated for every fuel bound and every content of the uninitialized
`ipvals[1..3]`. -/
theorem parseip_diverges (fuel : Nat) (junk : Nat → Nat) (ip : Nat) :
    parseipFuel fuel (ip + 1) junk = none := by
  unfold parseipFuel parseipStep
  simp [emitLoop_none]

/-! ## C5: ARP reply validation -/

/-- C5: `parsereply` resolves a MAC only if the frame's ethertype is 0x0806,
its protocol type is 0x0800, its opcode is 2 (reply) and its ARP-destination
MAC text equals the broadcast constant; and a frame whose opcode is 1
(request) is rejected as "not a reply" even when every other field is
well-formed. -/
theorem parsereply_only_valid (fuel : Nat) (eth : eth_head) (junk : Nat → Nat) :
    (∀ m, parsereplyFuel fuel eth junk = some (PReply.resolved m) →
        eth.ethtype = 0x0806 ∧ eth.prottype = 0x0800 ∧ eth.opercode = 2 ∧
        unpackmac eth.arpdmac = broadcastMacStr ++ [0]) ∧
    (eth.ethtype = 0x0806 → eth.prottype = 0x0800 → eth.opercode = 1 →
        parsereplyFuel fuel eth junk = some PReply.notReply) := by
  constructor
  · intro m hm
    unfold parsereplyFuel at hm
    by_cases h1 : eth.ethtype = 0x0806
    · by_cases h2 : eth.prottype = 0x0800
      · by_cases h3 : eth.opercode = 2
        · by_cases h4 : unpackmac eth.arpdmac = broadcastMacStr ++ [0]
          · exact ⟨h1, h2, h3, h4⟩
          · simp [h1, h2, h3, h4] at hm
        · simp [h1, h2, h3] at hm
      · simp [h1, h2] at hm
    · simp [h1] at hm
  · intro h1 h2 h3
    unfold parsereplyFuel
    simp [h1, h2, h3]

/-- Witness for C5: a request frame (opcode 1) with all other fields
well-formed is rejected as "not a reply". -/
theorem parsereply_only_valid_witness :
    parsereplyFuel 1 ethReq zf = some PReply.notReply :=
  (parsereply_only_valid 1 ethReq zf).2 rfl rfl rfl

/-! ## C1: transmit tail index -/

/-- C1: starting from tail = 0, after `N` transmits the tail equals
`N mod 128`, and a single transmit preserves `0 ≤ tail < 128`. -/
theorem sende1000_tail_mod (s : e1000) (pkts : Nat → List Nat × Nat) (N : Nat)
    (h0 : s.tbdtail = 0) :
    (sendN s pkts N).tbdtail = (N : Int) % 128 ∧
    (∀ u : e1000, ∀ pkt len, 0 ≤ u.tbdtail → u.tbdtail < 128 →
        0 ≤ (sende1000 u pkt len).tbdtail ∧
        (sende1000 u pkt len).tbdtail < 128) := by
  constructor
  · induction N with
    | zero => simpa [sendN]
    | succ n ih =>
        have htail : (sendN s pkts (n + 1)).tbdtail
            = ((sendN s pkts n).tbdtail + 1) % 128 := rfl
        rw [htail, ih]
        push_cast
        omega
  · intro u pkt len h1 h2
    have hu : (sende1000 u pkt len).tbdtail = (u.tbdtail + 1) % 128 := rfl
    rw [hu]
    exact ⟨Int.emod_nonneg _ (by norm_num), Int.emod_lt_of_pos _ (by norm_num)⟩

/-- Witness for C1: three transmits from the freshly initialized driver leave
the tail at 3 mod 128. -/
theorem sende1000_tail_mod_witness :
    e1000Init.tbdtail = 0 ∧
    (sendN e1000Init pktsEx 3).tbdtail = ((3 : Nat) : Int) % 128 :=
  ⟨rfl, (sende1000_tail_mod e1000Init pktsEx 3 rfl).1⟩

/-! ## C6: no length check on transmit -/

/-- C6: `sende1000` has no length check — a 2047-byte packet (one byte past
the 2046-byte buffer capacity) is copied in full into the tail buffer, the
tail advances and the hardware tail register is written; the function
returns `void`, so no length error can be reported and the ring state is
not left unchanged. -/
theorem sende1000_no_length_check :
    pkt2047.length = 2047 ∧ 2046 < pkt2047.length ∧
    (sende1000 e1000Init pkt2047 2047).tbuf ⟨0, by norm_num⟩ = pkt2047 ∧
    (sende1000 e1000Init pkt2047 2047).tbdtail = 1 ∧
    (sende1000 e1000Init pkt2047 2047).regs E1000_TDT = 1 := by
  have hlen : pkt2047.length = 2047 := List.length_replicate 2047 0xAB
  have htake : pkt2047.take 2047 = pkt2047 := by
    rw [← hlen]
    exact List.take_length pkt2047
  refine ⟨hlen, by omega, ?_, rfl, rfl⟩
  have hbuf : (sende1000 e1000Init pkt2047 2047).tbuf
      = Function.update e1000Init.tbuf ⟨0, by omega⟩ (pkt2047.take 2047) := rfl
  rw [hbuf, htake]
  exact Function.update_same _ _ _

/-! ## C7: misaligned ring error path -/

/-- C7 counterexample: with the transmit ring allocated at virtual
KERNBASE + 8 (physical start 8, not divisible by 16), `inite1000` returns -1
but the pointer it hands to `kfree` is the ring start advanced past all 128
descriptors (start + 2048) — not the allocated region. -/
theorem inite1000_free_counterexample :
    (initRings (KERNBASE + 8) KERNBASE).result = -1 ∧
    (initRings (KERNBASE + 8) KERNBASE).freed = [KERNBASE + 8 + 2048] ∧
    (initRings (KERNBASE + 8) KERNBASE).freed ≠ [KERNBASE + 8] := by
  refine ⟨by decide, by decide, by decide⟩

/-- C7 (amended): when a ring's physical start is not divisible by 16,
`inite1000` returns -1 (a negative ring-alignment error), but the address it
passes to `kfree` is the post-loop descriptor pointer, ring start + 16*128
bytes — not the allocated region's start. -/
theorem inite1000_misaligned (talloc ralloc : Nat) :
    (V2P talloc % 16 ≠ 0 →
      (initRings talloc ralloc).result = -1 ∧
      (initRings talloc ralloc).freed = [talloc + 16 * 128]) ∧
    (V2P talloc % 16 = 0 → V2P ralloc % 16 ≠ 0 →
      (initRings talloc ralloc).result = -1 ∧
      (initRings talloc ralloc).freed = [ralloc + 16 * 128]) := by
  constructor
  · intro h
    simp [initRings, h]
  · intro ht hr
    simp [initRings, ht, hr]

/-- Witness for C7 at the concrete misaligned transmit-ring address. -/
theorem inite1000_misaligned_witness :
    V2P (KERNBASE + 8) % 16 ≠ 0 ∧
    (initRings (KERNBASE + 8) KERNBASE).result = -1 ∧
    (initRings (KERNBASE + 8) KERNBASE).freed = [KERNBASE + 8 + 16 * 128] := by
  have h : V2P (KERNBASE + 8) % 16 ≠ 0 := by decide
  exact ⟨h, ((inite1000_misaligned (KERNBASE + 8) KERNBASE).1 h).1,
    ((inite1000_misaligned (KERNBASE + 8) KERNBASE).1 h).2⟩

/-! ## C8: ring-length register values -/

/-- C8 counterexample: the value written to TDLEN (and RDLEN) is
`(128 * 16) << 7 = 262144`, not the claimed `slots * descriptor_size
= 128 * 16 = 2048`. -/
theorem ringlen_counterexample :
    (initRegProgram 0 0).lookup E1000_TDLEN = some 262144 ∧
    (initRegProgram 0 0).lookup E1000_RDLEN = some 262144 ∧
    E1000_TBD_SLOTS * 16 = 2048 ∧ (262144 : Nat) ≠ 2048 := by
  refine ⟨by decide, by decide, by decide, by decide⟩

/-- C8 (amended): step 8 writes ring bases, `(slots * 16) << 7 = 262144` to
both ring-length registers, and 0 to the head and tail registers of both
rings. -/
theorem init_reg_values (tbdpa rbdpa : Nat) :
    (initRegProgram tbdpa rbdpa).lookup E1000_TDBAL = some tbdpa ∧
    (initRegProgram tbdpa rbdpa).lookup E1000_RDBAL = some rbdpa ∧
    (initRegProgram tbdpa rbdpa).lookup E1000_TDLEN
      = some ((E1000_TBD_SLOTS * 16) <<< 7) ∧
    (initRegProgram tbdpa rbdpa).lookup E1000_RDLEN
      = some ((E1000_RBD_SLOTS * 16) <<< 7) ∧
    (initRegProgram tbdpa rbdpa).lookup E1000_TDH = some 0 ∧
    (initRegProgram tbdpa rbdpa).lookup E1000_TDT = some 0 ∧
    (initRegProgram tbdpa rbdpa).lookup E1000_RDH = some 0 ∧
    (initRegProgram tbdpa rbdpa).lookup E1000_RDT = some 0 ∧
    (E1000_TBD_SLOTS * 16) <<< 7 = 262144 := by
  refine ⟨rfl, rfl, rfl, rfl, rfl, rfl, rfl, rfl, rfl⟩

/-! ## C9: PCI configuration port traffic -/

/-- C9: `pciconfwrite` sends the formed address to the address port 0xCF8 and
the value to the data port 0xCFC as claimed, but `pciconfread` sends the
formed address to the DATA port 0xCFC (not 0xCF8) before reading 0xCFC —
contradicting the claim and pci.h's own comment.  The address formation
itself matches the claimed formula. -/
theorem pciconfread_port_bug :
    pciconfreadTrace 0 0 0 0 =
      [IOEvent.outl PCI_CONF_DATA_IOPORT 0x80000000,
       IOEvent.inl PCI_CONF_DATA_IOPORT] ∧
    pciconfreadTrace 0 0 0 0 ≠
      [IOEvent.outl PCI_CONF_ADDR_IOPORT (pciconfigformaddr 0 0 0 0),
       IOEvent.inl PCI_CONF_DATA_IOPORT] ∧
    pciconfwriteTrace 0 0 0 0 7 =
      [IOEvent.outl PCI_CONF_ADDR_IOPORT 0x80000000,
       IOEvent.outl PCI_CONF_DATA_IOPORT 7] ∧
    PCI_CONF_DATA_IOPORT ≠ PCI_CONF_ADDR_IOPORT ∧
    pciconfigformaddr 1 2 3 4 = 0x80011304 := by
  refine ⟨by decide, by decide, by decide, by decide, by decide⟩

/-! ## C10: hton involution -/

/-- C10: the 16-bit byte swap `hton` is an involution on 16-bit values. -/
theorem hton_involution (v : Nat) (h : v < 65536) : hton (hton v) = v := by
  have h1 := hton_arith v h
  have h2 := hton_arith (hton v) (by rw [h1]; omega)
  omega

/-- Witness for C10 at the concrete value 0x1234. -/
theorem hton_involution_witness : hton (hton 0x1234) = 0x1234 :=
  hton_involution 0x1234 (by norm_num)

end XvNet
